import Mathlib

/-!
Verification of the touch-UI controller in `boot.py`: swipe-based two-level
menu navigation (`detect_swipe`, `get_max_submenus`) and the multitap
keyboard for the search screen (`handle_keyboard_touch`).

The global mutable state of the script is collected in one structure;
each function is embedded as a state transformer.  Python integers are
`Int` (Python's `%` on a positive modulus coincides with `Int.emod`),
the text buffer is a `List Char`, and the mode-keyed layout dictionaries
are association lists in source order.
-/

namespace Watch

/-- The module-level mutable variables of `boot.py` that the touch input
functions read or write. -/
structure SysState where
  lastTouchX : Option Int
  lastTouchY : Option Int
  mainMenu : Int
  subMenu : Int
  searchText : List Char
  keyboardMode : String
  multitapKey : Option String
  multitapCount : Nat
  multitapTime : Int
  deriving DecidableEq, Repr

/-- Initial values of the globals at process start. -/
def initState : SysState :=
  { lastTouchX := none
    lastTouchY := none
    mainMenu := 0
    subMenu := 0
    searchText := []
    keyboardMode := "abc"
    multitapKey := none
    multitapCount := 0
    multitapTime := 0 }

/-- `multitap_letters`: lower-case layout, in source order. -/
def multitap_letters : List (String × List Char) :=
  [("abc", ['a', 'b', 'c']),
   ("def", ['d', 'e', 'f']),
   ("ghi", ['g', 'h', 'i']),
   ("jkl", ['j', 'k', 'l']),
   ("mno", ['m', 'n', 'o']),
   ("pqrs", ['p', 'q', 'r', 's']),
   ("tuv", ['t', 'u', 'v']),
   ("wxyz", ['w', 'x', 'y', 'z']),
   ("SPACE", [' '])]

/-- `multitap_letters_upper`: upper-case layout, in source order. -/
def multitap_letters_upper : List (String × List Char) :=
  [("ABC", ['A', 'B', 'C']),
   ("DEF", ['D', 'E', 'F']),
   ("GHI", ['G', 'H', 'I']),
   ("JKL", ['J', 'K', 'L']),
   ("MNO", ['M', 'N', 'O']),
   ("PQRS", ['P', 'Q', 'R', 'S']),
   ("TUV", ['T', 'U', 'V']),
   ("WXYZ", ['W', 'X', 'Y', 'Z']),
   ("SPACE", [' '])]

/-- `multitap_numbers`: numeric layout, in source order. -/
def multitap_numbers : List (String × List Char) :=
  [("1", ['1']), ("2", ['2']), ("3", ['3']),
   ("4", ['4']), ("5", ['5']), ("6", ['6']),
   ("7", ['7']), ("8", ['8']), ("9", ['9']),
   ("0", ['0']), (".", ['.']), ("@", ['@'])]

/-- `get_max_submenus`: number of submenus of a main menu. -/
def get_max_submenus (menu : Int) : Int :=
  if menu = 1 then 2 else 1

/-- `detect_swipe`: classifies the current optional touch sample against
the stored anchor and updates `main_menu` / `sub_menu` / the anchor.
The `time.sleep_ms(300)` calls affect only wall time, not state. -/
def detect_swipe (s : SysState) (touch_data : Option (Int × Int)) : SysState :=
  match touch_data with
  | none => { s with lastTouchX := none, lastTouchY := none }
  | some (x, y) =>
    match s.lastTouchX, s.lastTouchY with
    | some lastX, some lastY =>
      let delta_x := x - lastX
      let delta_y := y - lastY
      if |delta_y| > 50 ∧ |delta_y| > |delta_x| then
        { s with
          mainMenu := if delta_y > 0 then (s.mainMenu + 1) % 5 else (s.mainMenu - 1) % 5
          subMenu := 0
          lastTouchX := none
          lastTouchY := none }
      else if |delta_x| > 40 ∧ |delta_x| > |delta_y| then
        { s with
          subMenu :=
            if get_max_submenus s.mainMenu > 1 then
              if delta_x < 0 then (s.subMenu + 1) % get_max_submenus s.mainMenu
              else (s.subMenu - 1) % get_max_submenus s.mainMenu
            else s.subMenu
          lastTouchX := none
          lastTouchY := none }
      else { s with lastTouchX := some x, lastTouchY := some y }
    | _, _ => { s with lastTouchX := some x, lastTouchY := some y }

/-- The row-band lookup inlined in `handle_keyboard_touch`
(`50<=y<=80 → 0`, `90<=y<=120 → 1`, `130<=y<=160 → 2`, `170<=y<=200 → 3`,
otherwise `-1`). -/
def get_row (y : Int) : Int :=
  if 50 ≤ y ∧ y ≤ 80 then 0
  else if 90 ≤ y ∧ y ≤ 120 then 1
  else if 130 ≤ y ∧ y ≤ 160 then 2
  else if 170 ≤ y ∧ y ≤ 200 then 3
  else -1

/-- The column-band lookup inlined in `handle_keyboard_touch`
(`20<=x<=80 → 0`, `90<=x<=150 → 1`, `160<=x<=220 → 2`, otherwise `-1`). -/
def get_col (x : Int) : Int :=
  if 20 ≤ x ∧ x ≤ 80 then 0
  else if 90 ≤ x ∧ x ≤ 150 then 1
  else if 160 ≤ x ∧ x ≤ 220 then 2
  else -1

/-- `handle_keyboard_touch`: resolves a tap to a grid cell and performs
backspace / mode toggle / submit / multitap entry.  Returns the updated
state and the function's boolean result.  `current_time` is the value of
`time.ticks_ms()` at the call. -/
def handle_keyboard_touch (s : SysState) (x y : Int) (current_time : Int) :
    SysState × Bool :=
  let keys : List (String × List Char) :=
    if s.keyboardMode = "abc" then multitap_letters
    else if s.keyboardMode = "ABC" then multitap_letters_upper
    else multitap_numbers
  let key_list := keys.map Prod.fst
  let row := get_row y
  let col := get_col x
  if 0 ≤ row ∧ 0 ≤ col then
    let key_idx : Int := row * 3 + col
    if key_idx = 9 then
      ({ s with
          searchText :=
            if s.searchText.length > 0 then s.searchText.dropLast else s.searchText
          multitapKey := none }, true)
    else if key_idx = 10 then
      ({ s with
          keyboardMode :=
            if s.keyboardMode = "abc" then "ABC"
            else if s.keyboardMode = "ABC" then "123"
            else "abc"
          multitapKey := none }, true)
    else if key_idx = 11 then
      ({ s with multitapKey := none }, true)
    else if key_idx < (key_list.length : Int) then
      let key_name := key_list.getD key_idx.toNat ""
      let cands := (keys.lookup key_name).getD []
      if s.multitapKey = some key_name ∧ current_time - s.multitapTime < 1000 then
        let newCount := (s.multitapCount + 1) % cands.length
        let trimmed :=
          if s.searchText.length > 0 then s.searchText.dropLast else s.searchText
        ({ s with
            multitapCount := newCount
            searchText := trimmed ++ [cands.getD newCount ' ']
            multitapTime := current_time }, true)
      else
        ({ s with
            multitapKey := some key_name
            multitapCount := 0
            searchText := s.searchText ++ [cands.getD 0 ' ']
            multitapTime := current_time }, true)
    else (s, false)
  else (s, false)

/-- One touch-input call of the main loop: either a `detect_swipe` call
or a `handle_keyboard_touch` call. -/
inductive Input where
  | swipe (touch_data : Option (Int × Int))
  | kbd (x y current_time : Int)
  deriving DecidableEq, Repr

/-- Apply one input call to the state. -/
def step (s : SysState) : Input → SysState
  | Input.swipe t => detect_swipe s t
  | Input.kbd x y ct => (handle_keyboard_touch s x y ct).1

/-- Apply a sequence of input calls in order. -/
def runInputs (s : SysState) : List Input → SysState
  | [] => s
  | i :: is => runInputs (step s i) is

/-- The invariant of the menu position: `main_menu` in `[0, 5)` and
`sub_menu` in `[0, get_max_submenus main_menu)`. -/
def MenuInv (s : SysState) : Prop :=
  0 ≤ s.mainMenu ∧ s.mainMenu < 5 ∧ 0 ≤ s.subMenu ∧
    s.subMenu < get_max_submenus s.mainMenu

/-- Every main menu has at least one submenu. -/
theorem get_max_submenus_pos (menu : Int) : 0 < get_max_submenus menu := by
  unfold get_max_submenus
  split <;> norm_num

/-- The guarded tail removal of the source equals `List.dropLast`. -/
theorem dropLast_guard (l : List Char) :
    (if l.length > 0 then l.dropLast else l) = l.dropLast := by
  cases l <;> simp

/-- `detect_swipe` leaves the whole text-entry state unchanged. -/
theorem detect_swipe_text_frame (s : SysState) (t : Option (Int × Int)) :
    (detect_swipe s t).searchText = s.searchText ∧
    (detect_swipe s t).keyboardMode = s.keyboardMode ∧
    (detect_swipe s t).multitapKey = s.multitapKey ∧
    (detect_swipe s t).multitapCount = s.multitapCount ∧
    (detect_swipe s t).multitapTime = s.multitapTime := by
  simp only [detect_swipe]
  split
  · exact ⟨rfl, rfl, rfl, rfl, rfl⟩
  · split
    · split_ifs <;> exact ⟨rfl, rfl, rfl, rfl, rfl⟩
    · exact ⟨rfl, rfl, rfl, rfl, rfl⟩

/-- `handle_keyboard_touch` leaves the menu position and the gesture
anchor unchanged. -/
theorem handle_keyboard_touch_menu_frame (s : SysState) (x y ct : Int) :
    (handle_keyboard_touch s x y ct).1.mainMenu = s.mainMenu ∧
    (handle_keyboard_touch s x y ct).1.subMenu = s.subMenu ∧
    (handle_keyboard_touch s x y ct).1.lastTouchX = s.lastTouchX ∧
    (handle_keyboard_touch s x y ct).1.lastTouchY = s.lastTouchY := by
  simp only [handle_keyboard_touch]
  split_ifs <;> exact ⟨rfl, rfl, rfl, rfl⟩

/-- Grid cells 9, 10 and 11 (bottom row) are the special buttons:
backspace, mode toggle and the search button, in every keyboard mode. -/
theorem handle_special_cell (s : SysState) (x y ct : Int) (r c : Int)
    (hr : get_row y = r) (hc : get_col x = c) (hr0 : 0 ≤ r) (hc0 : 0 ≤ c) :
    (r * 3 + c = 9 →
      handle_keyboard_touch s x y ct =
        ({ s with searchText := s.searchText.dropLast, multitapKey := none }, true)) ∧
    (r * 3 + c = 10 →
      handle_keyboard_touch s x y ct =
        ({ s with
            keyboardMode :=
              if s.keyboardMode = "abc" then "ABC"
              else if s.keyboardMode = "ABC" then "123"
              else "abc"
            multitapKey := none }, true)) ∧
    (r * 3 + c = 11 →
      handle_keyboard_touch s x y ct =
        ({ s with multitapKey := none }, true)) := by
  simp only [handle_keyboard_touch, hr, hc]
  rw [if_pos ⟨hr0, hc0⟩]
  refine ⟨fun h9 => ?_, fun h10 => ?_, fun h11 => ?_⟩
  · rw [if_pos h9, dropLast_guard]
  · rw [if_neg (show ¬(r * 3 + c = 9) by omega), if_pos h10]
  · rw [if_neg (show ¬(r * 3 + c = 9) by omega),
      if_neg (show ¬(r * 3 + c = 10) by omega), if_pos h11]

/-- Character-cell branch of `handle_keyboard_touch`: a tap resolved to a
cell that is none of the three special buttons and carries a key cluster
runs the multitap logic of the source. -/
theorem handle_char_cell (s : SysState) (x y ct : Int)
    (keys : List (String × List Char))
    (hkeys : (if s.keyboardMode = "abc" then multitap_letters
              else if s.keyboardMode = "ABC" then multitap_letters_upper
              else multitap_numbers) = keys)
    (r c : Int) (hr : get_row y = r) (hc : get_col x = c)
    (hr0 : 0 ≤ r) (hc0 : 0 ≤ c)
    (idx : Nat) (hidx : r * 3 + c = (idx : Int))
    (h9 : idx ≠ 9) (h10 : idx ≠ 10) (h11 : idx ≠ 11)
    (hlen : idx < keys.length)
    (key_name : String) (hname : (keys.map Prod.fst).getD idx "" = key_name)
    (cands : List Char) (hcands : (keys.lookup key_name).getD [] = cands) :
    handle_keyboard_touch s x y ct =
      (if s.multitapKey = some key_name ∧ ct - s.multitapTime < 1000 then
        ({ s with
            multitapCount := (s.multitapCount + 1) % cands.length
            searchText :=
              s.searchText.dropLast ++
                [cands.getD ((s.multitapCount + 1) % cands.length) ' ']
            multitapTime := ct }, true)
      else
        ({ s with
            multitapKey := some key_name
            multitapCount := 0
            searchText := s.searchText ++ [cands.getD 0 ' ']
            multitapTime := ct }, true)) := by
  have hnat : (r * 3 + c).toNat = idx := by omega
  simp only [handle_keyboard_touch, hkeys, hr, hc]
  rw [if_pos ⟨hr0, hc0⟩,
    if_neg (show ¬(r * 3 + c = 9) by omega),
    if_neg (show ¬(r * 3 + c = 10) by omega),
    if_neg (show ¬(r * 3 + c = 11) by omega),
    if_pos (show r * 3 + c < ((keys.map Prod.fst).length : Int) by
      rw [List.length_map]; omega),
    hnat, hname, hcands, dropLast_guard]

/-- `MenuInv` holds of a state whose menu fields have the given values. -/
theorem menuInv_of (m sub : Int) (h1 : 0 ≤ m) (h2 : m < 5) (h3 : 0 ≤ sub)
    (h4 : sub < get_max_submenus m) (s : SysState)
    (hm : s.mainMenu = m) (hs : s.subMenu = sub) : MenuInv s := by
  unfold MenuInv
  rw [hm, hs]
  exact ⟨h1, h2, h3, h4⟩

/-- `detect_swipe` preserves the menu invariant. -/
theorem menuInv_detect_swipe (s : SysState) (t : Option (Int × Int))
    (h : MenuInv s) : MenuInv (detect_swipe s t) := by
  obtain ⟨h1, h2, h3, h4⟩ := h
  have hpos : (0 : Int) < get_max_submenus s.mainMenu := get_max_submenus_pos _
  simp only [detect_swipe]
  split
  · exact ⟨h1, h2, h3, h4⟩
  · split
    · split_ifs
      · exact menuInv_of ((s.mainMenu + 1) % 5) 0 (by omega) (by omega)
          (le_refl 0) (get_max_submenus_pos _) _ rfl rfl
      · exact menuInv_of ((s.mainMenu - 1) % 5) 0 (by omega) (by omega)
          (le_refl 0) (get_max_submenus_pos _) _ rfl rfl
      · exact menuInv_of s.mainMenu ((s.subMenu + 1) % get_max_submenus s.mainMenu)
          h1 h2 (Int.emod_nonneg _ (ne_of_gt hpos)) (Int.emod_lt_of_pos _ hpos) _ rfl rfl
      · exact menuInv_of s.mainMenu ((s.subMenu - 1) % get_max_submenus s.mainMenu)
          h1 h2 (Int.emod_nonneg _ (ne_of_gt hpos)) (Int.emod_lt_of_pos _ hpos) _ rfl rfl
      · exact ⟨h1, h2, h3, h4⟩
      · exact ⟨h1, h2, h3, h4⟩
    · exact ⟨h1, h2, h3, h4⟩

/-- One input call preserves the menu invariant. -/
theorem menuInv_step (s : SysState) (i : Input) (h : MenuInv s) :
    MenuInv (step s i) := by
  cases i with
  | swipe t => exact menuInv_detect_swipe s t h
  | kbd x y ct =>
    have hf := handle_keyboard_touch_menu_frame s x y ct
    unfold MenuInv at h ⊢
    simp only [step]
    rw [hf.1, hf.2.1]
    exact h

/-- Any sequence of input calls preserves the menu invariant. -/
theorem menuInv_runInputs (l : List Input) (s : SysState) (h : MenuInv s) :
    MenuInv (runInputs s l) := by
  induction l generalizing s with
  | nil => exact h
  | cons i is ih => exact ih _ (menuInv_step s i h)

/-- A `y` coordinate in the fourth row band resolves to row 3. -/
theorem get_row_band3 {y : Int} (h1 : 170 ≤ y) (h2 : y ≤ 200) :
    get_row y = 3 := by
  have n1 : ¬(50 ≤ y ∧ y ≤ 80) := by omega
  have n2 : ¬(90 ≤ y ∧ y ≤ 120) := by omega
  have n3 : ¬(130 ≤ y ∧ y ≤ 160) := by omega
  unfold get_row
  rw [if_neg n1, if_neg n2, if_neg n3, if_pos ⟨h1, h2⟩]

/-- An `x` coordinate in the first column band resolves to column 0. -/
theorem get_col_band0 {x : Int} (h1 : 20 ≤ x) (h2 : x ≤ 80) :
    get_col x = 0 := by
  unfold get_col
  rw [if_pos ⟨h1, h2⟩]

/-- An `x` coordinate in the second column band resolves to column 1. -/
theorem get_col_band1 {x : Int} (h1 : 90 ≤ x) (h2 : x ≤ 150) :
    get_col x = 1 := by
  have n1 : ¬(20 ≤ x ∧ x ≤ 80) := by omega
  unfold get_col
  rw [if_neg n1, if_pos ⟨h1, h2⟩]

/-- A `y` coordinate outside every row band resolves to row `-1`. -/
theorem get_row_eq_neg {y : Int}
    (h1 : ¬(50 ≤ y ∧ y ≤ 80)) (h2 : ¬(90 ≤ y ∧ y ≤ 120))
    (h3 : ¬(130 ≤ y ∧ y ≤ 160)) (h4 : ¬(170 ≤ y ∧ y ≤ 200)) :
    get_row y = -1 := by
  unfold get_row
  rw [if_neg h1, if_neg h2, if_neg h3, if_neg h4]

/-- An `x` coordinate outside every column band resolves to column `-1`. -/
theorem get_col_eq_neg {x : Int}
    (h1 : ¬(20 ≤ x ∧ x ≤ 80)) (h2 : ¬(90 ≤ x ∧ x ≤ 150))
    (h3 : ¬(160 ≤ x ∧ x ≤ 220)) :
    get_col x = -1 := by
  unfold get_col
  rw [if_neg h1, if_neg h2, if_neg h3]

/-- `get_row` only takes the values `-1, 0, 1, 2, 3`. -/
theorem get_row_cases (y : Int) :
    get_row y = -1 ∨ get_row y = 0 ∨ get_row y = 1 ∨ get_row y = 2 ∨
      get_row y = 3 := by
  unfold get_row
  split_ifs <;> simp

/-- `get_col` only takes the values `-1, 0, 1, 2`. -/
theorem get_col_cases (x : Int) :
    get_col x = -1 ∨ get_col x = 0 ∨ get_col x = 1 ∨ get_col x = 2 := by
  unfold get_col
  split_ifs <;> simp

/-- First tap on the search screen: the cell at row 0, column 1 carries
the cluster `"def"`. -/
def c3_tap1 : SysState × Bool := handle_keyboard_touch initState 90 50 0

/-- Second tap on the same cell, 500 ms later. -/
def c3_tap2 : SysState × Bool := handle_keyboard_touch c3_tap1.1 90 50 500

/-- Third tap on the same cell at 1600 ms, 1100 ms after the second. -/
def c3_tap3 : SysState × Bool := handle_keyboard_touch c3_tap2.1 90 50 1600

/-- Claim C3: starting from an empty multitap state and empty buffer,
tapping the `"def"` cell at t=0 yields buffer `"d"`, tapping it again at
t=500 ms yields `"e"`, and tapping it at t=1600 ms (1100 ms later, past
the 1000 ms window) yields `"ed"`; each tap returns true. -/
theorem C3_def_multitap_sequence :
    c3_tap1.1.searchText = ['d'] ∧ c3_tap1.2 = true ∧
    c3_tap2.1.searchText = ['e'] ∧ c3_tap2.2 = true ∧
    c3_tap3.1.searchText = ['e', 'd'] ∧ c3_tap3.2 = true := by
  decide

/-- Claim C4: with an anchor stored, a sample whose vertical delta
dominates (`|dy| > 50` and `|dy| > |dx|`) moves the main menu exactly one
step mod 5 (down if `dy > 0`, up if `dy < 0`), resets the submenu to 0,
clears the anchor, and changes nothing else. -/
theorem C4_vertical_swipe (s : SysState) (lastX lastY x y : Int)
    (hX : s.lastTouchX = some lastX) (hY : s.lastTouchY = some lastY)
    (hdy : |y - lastY| > 50) (hdom : |y - lastY| > |x - lastX|) :
    detect_swipe s (some (x, y)) =
      { s with
        mainMenu :=
          if y - lastY > 0 then (s.mainMenu + 1) % 5 else (s.mainMenu - 1) % 5
        subMenu := 0
        lastTouchX := none
        lastTouchY := none } := by
  simp only [detect_swipe, hX, hY]
  rw [if_pos ⟨hdy, hdom⟩]

/-- Witness for C4: from anchor (100, 100) and main menu 0, the sample
(100, 160) has `dy = 60` and advances the main menu to 1. -/
theorem C4_witness :
    (detect_swipe { initState with lastTouchX := some 100, lastTouchY := some 100 }
      (some (100, 160))).mainMenu = 1 ∧
    (detect_swipe { initState with lastTouchX := some 100, lastTouchY := some 100 }
      (some (100, 160))).subMenu = 0 ∧
    (detect_swipe { initState with lastTouchX := some 100, lastTouchY := some 100 }
      (some (100, 160))).lastTouchX = none := by
  have h := C4_vertical_swipe
    { initState with lastTouchX := some 100, lastTouchY := some 100 }
    100 100 100 160 rfl rfl (by decide) (by decide)
  rw [h]
  exact ⟨rfl, rfl, rfl⟩

/-- Claim C5: with an anchor stored, a sample whose horizontal delta
dominates (`|dx| > 40` and `|dx| > |dy|`) leaves the main menu alone and,
when the current main menu has more than one submenu, steps the submenu
by +1 mod max (swipe left, `dx < 0`) or -1 mod max (swipe right); when
`get_max_submenus` is at most 1 the submenu is unchanged.  In all cases
the anchor is cleared. -/
theorem C5_horizontal_swipe (s : SysState) (lastX lastY x y : Int)
    (hX : s.lastTouchX = some lastX) (hY : s.lastTouchY = some lastY)
    (hdx : |x - lastX| > 40) (hdom : |x - lastX| > |y - lastY|) :
    detect_swipe s (some (x, y)) =
      { s with
        subMenu :=
          if get_max_submenus s.mainMenu > 1 then
            if x - lastX < 0 then (s.subMenu + 1) % get_max_submenus s.mainMenu
            else (s.subMenu - 1) % get_max_submenus s.mainMenu
          else s.subMenu
        lastTouchX := none
        lastTouchY := none } := by
  simp only [detect_swipe, hX, hY]
  rw [if_neg (fun hv => absurd hdom (lt_asymm hv.2)), if_pos ⟨hdx, hdom⟩]

/-- Witness for C5: from Weather-Main (main 1, sub 0) with anchor
(100, 100), the sample (50, 100) is a qualifying left swipe and sets the
submenu to 1; a qualifying left swipe from sub 1 wraps back to 0. -/
theorem C5_witness :
    (detect_swipe
      { initState with mainMenu := 1, lastTouchX := some 100, lastTouchY := some 100 }
      (some (50, 100))).subMenu = 1 ∧
    (detect_swipe
      { initState with
          mainMenu := 1
          subMenu := 1
          lastTouchX := some 100
          lastTouchY := some 100 }
      (some (50, 100))).subMenu = 0 := by
  have h1 := C5_horizontal_swipe
    { initState with mainMenu := 1, lastTouchX := some 100, lastTouchY := some 100 }
    100 100 50 100 rfl rfl (by decide) (by decide)
  have h2 := C5_horizontal_swipe
    { initState with
        mainMenu := 1
        subMenu := 1
        lastTouchX := some 100
        lastTouchY := some 100 }
    100 100 50 100 rfl rfl (by decide) (by decide)
  rw [h1, h2]
  exact ⟨by decide, by decide⟩

/-- Counterexample to claim C6: a tap on the mode-toggle cell (row 3,
column 1) advances the mode and clears `multitap_key`, but it does not
reset `multitap_count` and `multitap_time` to their initial value 0:
from a state with count 2 and time 500 they stay 2 and 500. -/
theorem C6_counterexample :
    ((handle_keyboard_touch
        { initState with multitapCount := 2, multitapTime := 500 }
        90 170 600).1.keyboardMode = "ABC" ∧
      (handle_keyboard_touch
        { initState with multitapCount := 2, multitapTime := 500 }
        90 170 600).1.multitapKey = none ∧
      (handle_keyboard_touch
        { initState with multitapCount := 2, multitapTime := 500 }
        90 170 600).2 = true) ∧
    ¬((handle_keyboard_touch
        { initState with multitapCount := 2, multitapTime := 500 }
        90 170 600).1.multitapCount = 0 ∧
      (handle_keyboard_touch
        { initState with multitapCount := 2, multitapTime := 500 }
        90 170 600).1.multitapTime = 0) := by
  decide

/-- Claim C6 (amended): every tap on the mode-toggle cell advances the
keyboard mode one step in the cycle `abc → ABC → 123 → abc`, sets
`multitap_key` to `None`, returns true, and changes nothing else — in
particular the text buffer is untouched and `multitap_count` and
`multitap_time` keep their previous values. -/
theorem C6_mode_toggle (s : SysState) (x y ct : Int)
    (hx1 : 90 ≤ x) (hx2 : x ≤ 150) (hy1 : 170 ≤ y) (hy2 : y ≤ 200) :
    handle_keyboard_touch s x y ct =
      ({ s with
          keyboardMode :=
            if s.keyboardMode = "abc" then "ABC"
            else if s.keyboardMode = "ABC" then "123"
            else "abc"
          multitapKey := none }, true) :=
  (handle_special_cell s x y ct 3 1 (get_row_band3 hy1 hy2)
    (get_col_band1 hx1 hx2) (by decide) (by decide)).2.1 (by decide)

/-- Witness for C6: from the initial state (mode `"abc"`), a tap at
(90, 170) switches the mode to `"ABC"` and clears the multitap key. -/
theorem C6_witness :
    handle_keyboard_touch initState 90 170 0 =
      ({ initState with keyboardMode := "ABC", multitapKey := none }, true) := by
  have h := C6_mode_toggle initState 90 170 0 (by decide) (by decide)
    (by decide) (by decide)
  rw [h]
  decide

/-- Claim C7: a tap on the backspace cell (row 3, column 0) removes the
last character of the buffer when it is non-empty, is a no-op on an empty
buffer, clears `multitap_key`, and returns true; the embedding is total,
so no error can be raised. -/
theorem C7_backspace (s : SysState) (x y ct : Int)
    (hx1 : 20 ≤ x) (hx2 : x ≤ 80) (hy1 : 170 ≤ y) (hy2 : y ≤ 200) :
    handle_keyboard_touch s x y ct =
      ({ s with searchText := s.searchText.dropLast, multitapKey := none }, true) ∧
    (s.searchText = [] → (handle_keyboard_touch s x y ct).1.searchText = []) := by
  have h := (handle_special_cell s x y ct 3 0 (get_row_band3 hy1 hy2)
    (get_col_band0 hx1 hx2) (by decide) (by decide)).1 (by decide)
  refine ⟨h, fun he => ?_⟩
  rw [h]
  simp [he]

/-- Witness for C7: a backspace tap at (20, 170) on the initial state
(empty buffer) leaves the buffer empty and returns true. -/
theorem C7_witness :
    (handle_keyboard_touch initState 20 170 0).1.searchText = [] ∧
    (handle_keyboard_touch initState 20 170 0).2 = true := by
  have h := C7_backspace initState 20 170 0 (by decide) (by decide)
    (by decide) (by decide)
  rw [h.1]
  exact ⟨rfl, rfl⟩

/-- Claim C9: a tap whose `y` lies outside every row band or whose `x`
lies outside every column band is ignored: `handle_keyboard_touch`
returns false and the whole state is unchanged. -/
theorem C9_out_of_bands (s : SysState) (x y ct : Int)
    (h : (¬(50 ≤ y ∧ y ≤ 80) ∧ ¬(90 ≤ y ∧ y ≤ 120) ∧
          ¬(130 ≤ y ∧ y ≤ 160) ∧ ¬(170 ≤ y ∧ y ≤ 200)) ∨
         (¬(20 ≤ x ∧ x ≤ 80) ∧ ¬(90 ≤ x ∧ x ≤ 150) ∧
          ¬(160 ≤ x ∧ x ≤ 220))) :
    handle_keyboard_touch s x y ct = (s, false) := by
  simp only [handle_keyboard_touch]
  rcases h with ⟨h1, h2, h3, h4⟩ | ⟨h1, h2, h3⟩
  · rw [get_row_eq_neg h1 h2 h3 h4, if_neg (by omega)]
  · rw [get_col_eq_neg h1 h2 h3, if_neg (by omega)]

/-- Witness for C9: the gap pixel (85, 100) lies between the first and
second column bands, so the tap is ignored. -/
theorem C9_witness :
    handle_keyboard_touch initState 85 100 0 = (initState, false) :=
  C9_out_of_bands initState 85 100 0 (Or.inr (by decide))

/-- Claim C10: disjoint state footprints of the two input consumers.
`detect_swipe` never changes the text buffer, keyboard mode, or any
multitap field, and `handle_keyboard_touch` never changes the menu
position or the gesture anchor — for every input, hence in particular
when one sample is consumed by both in the same tick of the main loop. -/
theorem C10_disjoint_footprints (s : SysState) (t : Option (Int × Int))
    (x y ct : Int) :
    ((detect_swipe s t).searchText = s.searchText ∧
     (detect_swipe s t).keyboardMode = s.keyboardMode ∧
     (detect_swipe s t).multitapKey = s.multitapKey ∧
     (detect_swipe s t).multitapCount = s.multitapCount ∧
     (detect_swipe s t).multitapTime = s.multitapTime) ∧
    ((handle_keyboard_touch s x y ct).1.mainMenu = s.mainMenu ∧
     (handle_keyboard_touch s x y ct).1.subMenu = s.subMenu ∧
     (handle_keyboard_touch s x y ct).1.lastTouchX = s.lastTouchX ∧
     (handle_keyboard_touch s x y ct).1.lastTouchY = s.lastTouchY) :=
  ⟨detect_swipe_text_frame s t, handle_keyboard_touch_menu_frame s x y ct⟩

/-- Claim C2: from any state whose menu position is the initial one
(main 0, sub 0), after any sequence of `detect_swipe` and
`handle_keyboard_touch` calls the main menu stays in `[0, 5)` and the
submenu stays below `get_max_submenus` of the current main menu. -/
theorem C2_menu_invariant (s₀ : SysState) (inputs : List Input)
    (h0 : s₀.mainMenu = 0 ∧ s₀.subMenu = 0) :
    0 ≤ (runInputs s₀ inputs).mainMenu ∧
    (runInputs s₀ inputs).mainMenu < 5 ∧
    (runInputs s₀ inputs).subMenu <
      get_max_submenus (runInputs s₀ inputs).mainMenu := by
  have hinv : MenuInv s₀ := by
    unfold MenuInv
    rw [h0.1, h0.2]
    exact ⟨le_refl 0, by norm_num, le_refl 0, get_max_submenus_pos 0⟩
  obtain ⟨h1, h2, _, h4⟩ := menuInv_runInputs inputs s₀ hinv
  exact ⟨h1, h2, h4⟩

/-- Witness for C2: the invariant after a concrete run from the initial
state (an anchor-setting sample, a vertical swipe, and a keyboard tap). -/
theorem C2_witness :
    (initState.mainMenu = 0 ∧ initState.subMenu = 0) ∧
    (0 ≤ (runInputs initState
        [Input.swipe (some (100, 100)), Input.swipe (some (100, 160)),
         Input.kbd 90 50 0]).mainMenu ∧
     (runInputs initState
        [Input.swipe (some (100, 100)), Input.swipe (some (100, 160)),
         Input.kbd 90 50 0]).mainMenu < 5 ∧
     (runInputs initState
        [Input.swipe (some (100, 100)), Input.swipe (some (100, 160)),
         Input.kbd 90 50 0]).subMenu <
       get_max_submenus (runInputs initState
        [Input.swipe (some (100, 100)), Input.swipe (some (100, 160)),
         Input.kbd 90 50 0]).mainMenu) :=
  ⟨⟨rfl, rfl⟩,
    C2_menu_invariant initState
      [Input.swipe (some (100, 100)), Input.swipe (some (100, 160)),
       Input.kbd 90 50 0] ⟨rfl, rfl⟩⟩

/-- Counterexample to claim C1: in numeric mode the cell that lists the
cluster `"0"` (grid cell 9, row 3 column 0) is intercepted by the
backspace branch before the character-key branch is reached: tapping it
with buffer `"ab"` deletes `'b'` instead of appending `'0'`. -/
theorem C1_counterexample :
    (handle_keyboard_touch
      { initState with keyboardMode := "123", searchText := ['a', 'b'] }
      20 170 0).1.searchText = ['a'] ∧
    ¬(handle_keyboard_touch
      { initState with keyboardMode := "123", searchText := ['a', 'b'] }
      20 170 0).1.searchText = ['a', 'b', '0'] := by
  decide

/-- Claim C1 (amended): in numeric mode the nine cells of rows 0-2 are
single-candidate character cells: a tap appends the cell's digit, and a
repeated tap on the same cell within the 1000 ms window removes the last
character and re-appends the same digit (cycle length 1).  The cells
that list `"0"`, `"."` and `"@"` (grid cells 9, 10 and 11) are instead
handled as the special actions backspace, mode toggle and submit, so
those three characters can never be entered. -/
theorem C1_numeric_keyboard (s : SysState) (x y t : Int)
    (hmode : s.keyboardMode = "123")
    (hrow : 0 ≤ get_row y) (hcol : 0 ≤ get_col x) :
    (get_row y * 3 + get_col x < 9 →
      ∃ (k : String) (ch : Char),
        (multitap_numbers.map Prod.fst).getD (get_row y * 3 + get_col x).toNat "" = k ∧
        multitap_numbers.lookup k = some [ch] ∧
        (handle_keyboard_touch s x y t).2 = true ∧
        (handle_keyboard_touch s x y t).1.searchText =
          (if s.multitapKey = some k ∧ t - s.multitapTime < 1000
           then s.searchText.dropLast ++ [ch]
           else s.searchText ++ [ch])) ∧
    (get_row y * 3 + get_col x = 9 →
      handle_keyboard_touch s x y t =
        ({ s with searchText := s.searchText.dropLast, multitapKey := none }, true)) ∧
    (get_row y * 3 + get_col x = 10 →
      handle_keyboard_touch s x y t =
        ({ s with keyboardMode := "abc", multitapKey := none }, true)) ∧
    (get_row y * 3 + get_col x = 11 →
      handle_keyboard_touch s x y t =
        ({ s with multitapKey := none }, true)) := by
  have hrows := get_row_cases y
  have hcols := get_col_cases x
  rcases hrows with hr | hr | hr | hr | hr
  · exact absurd hrow (by omega)
  all_goals rcases hcols with hc | hc | hc | hc
  all_goals try exact absurd hcol (by omega)
  -- row 0
  · refine ⟨fun _ => ?_, fun h9 => absurd h9 (by omega),
      fun h10 => absurd h10 (by omega), fun h11 => absurd h11 (by omega)⟩
    have h := handle_char_cell s x y t multitap_numbers (by rw [hmode]; decide) 0 0 hr hc
      (by decide) (by decide) 0 (by decide) (by decide) (by decide) (by decide)
      (by decide) "1" (by decide) ['1'] (by decide)
    refine ⟨"1", '1', (by rw [hr, hc]; decide), by decide, ?_, ?_⟩
    · rw [h]; split_ifs <;> rfl
    · rw [h]
      by_cases hcond : s.multitapKey = some "1" ∧ t - s.multitapTime < 1000
      · rw [if_pos hcond, if_pos hcond]; simp [Nat.mod_one]
      · rw [if_neg hcond, if_neg hcond]; simp
  · refine ⟨fun _ => ?_, fun h9 => absurd h9 (by omega),
      fun h10 => absurd h10 (by omega), fun h11 => absurd h11 (by omega)⟩
    have h := handle_char_cell s x y t multitap_numbers (by rw [hmode]; decide) 0 1 hr hc
      (by decide) (by decide) 1 (by decide) (by decide) (by decide) (by decide)
      (by decide) "2" (by decide) ['2'] (by decide)
    refine ⟨"2", '2', (by rw [hr, hc]; decide), by decide, ?_, ?_⟩
    · rw [h]; split_ifs <;> rfl
    · rw [h]
      by_cases hcond : s.multitapKey = some "2" ∧ t - s.multitapTime < 1000
      · rw [if_pos hcond, if_pos hcond]; simp [Nat.mod_one]
      · rw [if_neg hcond, if_neg hcond]; simp
  · refine ⟨fun _ => ?_, fun h9 => absurd h9 (by omega),
      fun h10 => absurd h10 (by omega), fun h11 => absurd h11 (by omega)⟩
    have h := handle_char_cell s x y t multitap_numbers (by rw [hmode]; decide) 0 2 hr hc
      (by decide) (by decide) 2 (by decide) (by decide) (by decide) (by decide)
      (by decide) "3" (by decide) ['3'] (by decide)
    refine ⟨"3", '3', (by rw [hr, hc]; decide), by decide, ?_, ?_⟩
    · rw [h]; split_ifs <;> rfl
    · rw [h]
      by_cases hcond : s.multitapKey = some "3" ∧ t - s.multitapTime < 1000
      · rw [if_pos hcond, if_pos hcond]; simp [Nat.mod_one]
      · rw [if_neg hcond, if_neg hcond]; simp
  -- row 1
  · refine ⟨fun _ => ?_, fun h9 => absurd h9 (by omega),
      fun h10 => absurd h10 (by omega), fun h11 => absurd h11 (by omega)⟩
    have h := handle_char_cell s x y t multitap_numbers (by rw [hmode]; decide) 1 0 hr hc
      (by decide) (by decide) 3 (by decide) (by decide) (by decide) (by decide)
      (by decide) "4" (by decide) ['4'] (by decide)
    refine ⟨"4", '4', (by rw [hr, hc]; decide), by decide, ?_, ?_⟩
    · rw [h]; split_ifs <;> rfl
    · rw [h]
      by_cases hcond : s.multitapKey = some "4" ∧ t - s.multitapTime < 1000
      · rw [if_pos hcond, if_pos hcond]; simp [Nat.mod_one]
      · rw [if_neg hcond, if_neg hcond]; simp
  · refine ⟨fun _ => ?_, fun h9 => absurd h9 (by omega),
      fun h10 => absurd h10 (by omega), fun h11 => absurd h11 (by omega)⟩
    have h := handle_char_cell s x y t multitap_numbers (by rw [hmode]; decide) 1 1 hr hc
      (by decide) (by decide) 4 (by decide) (by decide) (by decide) (by decide)
      (by decide) "5" (by decide) ['5'] (by decide)
    refine ⟨"5", '5', (by rw [hr, hc]; decide), by decide, ?_, ?_⟩
    · rw [h]; split_ifs <;> rfl
    · rw [h]
      by_cases hcond : s.multitapKey = some "5" ∧ t - s.multitapTime < 1000
      · rw [if_pos hcond, if_pos hcond]; simp [Nat.mod_one]
      · rw [if_neg hcond, if_neg hcond]; simp
  · refine ⟨fun _ => ?_, fun h9 => absurd h9 (by omega),
      fun h10 => absurd h10 (by omega), fun h11 => absurd h11 (by omega)⟩
    have h := handle_char_cell s x y t multitap_numbers (by rw [hmode]; decide) 1 2 hr hc
      (by decide) (by decide) 5 (by decide) (by decide) (by decide) (by decide)
      (by decide) "6" (by decide) ['6'] (by decide)
    refine ⟨"6", '6', (by rw [hr, hc]; decide), by decide, ?_, ?_⟩
    · rw [h]; split_ifs <;> rfl
    · rw [h]
      by_cases hcond : s.multitapKey = some "6" ∧ t - s.multitapTime < 1000
      · rw [if_pos hcond, if_pos hcond]; simp [Nat.mod_one]
      · rw [if_neg hcond, if_neg hcond]; simp
  -- row 2
  · refine ⟨fun _ => ?_, fun h9 => absurd h9 (by omega),
      fun h10 => absurd h10 (by omega), fun h11 => absurd h11 (by omega)⟩
    have h := handle_char_cell s x y t multitap_numbers (by rw [hmode]; decide) 2 0 hr hc
      (by decide) (by decide) 6 (by decide) (by decide) (by decide) (by decide)
      (by decide) "7" (by decide) ['7'] (by decide)
    refine ⟨"7", '7', (by rw [hr, hc]; decide), by decide, ?_, ?_⟩
    · rw [h]; split_ifs <;> rfl
    · rw [h]
      by_cases hcond : s.multitapKey = some "7" ∧ t - s.multitapTime < 1000
      · rw [if_pos hcond, if_pos hcond]; simp [Nat.mod_one]
      · rw [if_neg hcond, if_neg hcond]; simp
  · refine ⟨fun _ => ?_, fun h9 => absurd h9 (by omega),
      fun h10 => absurd h10 (by omega), fun h11 => absurd h11 (by omega)⟩
    have h := handle_char_cell s x y t multitap_numbers (by rw [hmode]; decide) 2 1 hr hc
      (by decide) (by decide) 7 (by decide) (by decide) (by decide) (by decide)
      (by decide) "8" (by decide) ['8'] (by decide)
    refine ⟨"8", '8', (by rw [hr, hc]; decide), by decide, ?_, ?_⟩
    · rw [h]; split_ifs <;> rfl
    · rw [h]
      by_cases hcond : s.multitapKey = some "8" ∧ t - s.multitapTime < 1000
      · rw [if_pos hcond, if_pos hcond]; simp [Nat.mod_one]
      · rw [if_neg hcond, if_neg hcond]; simp
  · refine ⟨fun _ => ?_, fun h9 => absurd h9 (by omega),
      fun h10 => absurd h10 (by omega), fun h11 => absurd h11 (by omega)⟩
    have h := handle_char_cell s x y t multitap_numbers (by rw [hmode]; decide) 2 2 hr hc
      (by decide) (by decide) 8 (by decide) (by decide) (by decide) (by decide)
      (by decide) "9" (by decide) ['9'] (by decide)
    refine ⟨"9", '9', (by rw [hr, hc]; decide), by decide, ?_, ?_⟩
    · rw [h]; split_ifs <;> rfl
    · rw [h]
      by_cases hcond : s.multitapKey = some "9" ∧ t - s.multitapTime < 1000
      · rw [if_pos hcond, if_pos hcond]; simp [Nat.mod_one]
      · rw [if_neg hcond, if_neg hcond]; simp
  -- row 3: the special cells
  · refine ⟨fun hlt => absurd hlt (by omega),
      fun _ => (handle_special_cell s x y t 3 0 hr hc (by decide) (by decide)).1
        (by decide),
      fun h10 => absurd h10 (by omega), fun h11 => absurd h11 (by omega)⟩
  · refine ⟨fun hlt => absurd hlt (by omega), fun h9 => absurd h9 (by omega),
      fun _ => ?_, fun h11 => absurd h11 (by omega)⟩
    have h := (handle_special_cell s x y t 3 1 hr hc (by decide) (by decide)).2.1
      (by decide)
    rw [h, hmode]
    rfl
  · refine ⟨fun hlt => absurd hlt (by omega), fun h9 => absurd h9 (by omega),
      fun h10 => absurd h10 (by omega),
      fun _ => (handle_special_cell s x y t 3 2 hr hc (by decide) (by decide)).2.2
        (by decide)⟩

/-- Witness for C1: tapping the `"1"` cell (20, 50) in numeric mode from
the initial state appends `'1'`. -/
theorem C1_witness :
    ((0 : Int) ≤ get_row 50 ∧ (0 : Int) ≤ get_col 20 ∧
      get_row 50 * 3 + get_col 20 < 9) ∧
    ∃ (k : String) (ch : Char),
      (multitap_numbers.map Prod.fst).getD (get_row 50 * 3 + get_col 20).toNat "" = k ∧
      multitap_numbers.lookup k = some [ch] ∧
      (handle_keyboard_touch { initState with keyboardMode := "123" } 20 50 0).2 = true ∧
      (handle_keyboard_touch { initState with keyboardMode := "123" } 20 50 0).1.searchText =
        (if { initState with keyboardMode := "123" }.multitapKey = some k ∧
            (0 : Int) - { initState with keyboardMode := "123" }.multitapTime < 1000
         then { initState with keyboardMode := "123" }.searchText.dropLast ++ [ch]
         else { initState with keyboardMode := "123" }.searchText ++ [ch]) :=
  ⟨⟨by decide, by decide, by decide⟩,
    (C1_numeric_keyboard { initState with keyboardMode := "123" } 20 50 0 rfl
      (by decide) (by decide)).1 (by decide)⟩

end Watch
